import Mathlib

set_option maxHeartbeats 1000000

/-!
Shallow embedding of `polyaxon_k8s/manager.py` (class `K8SManager`) and
`polyaxon_k8s/constants.py`.

The kubernetes client is modelled as an environment (`Env`, `NodeEnv`,
`VersionEnv`) that says, for each primitive the method may invoke (read,
patch, create, delete, list, patch-node), whether the call succeeds or
raises an `ApiException` carrying a status code.  Each manager method is a
pure function from that environment to a `RunResult`: the list of client
calls it issued (in order), the outcome it reached, and the exception it
lets escape to the caller, if any.  The Python methods return `None`; the
`Outcome` field records which terminal branch of the method ran, matching
the event the method logs there (`was created` / `was patched` / `Deleted`
/ `was not found`) or `Failed` for the error branches.
-/

/-- The status code carried by an `ApiException` raised by the kubernetes
client (404 for not-found, 403 for permission denied, and so on). -/
structure ApiError where
  status : Nat
  deriving DecidableEq, Repr

/-- The not-found classification of a client failure: status 404.  (The
manager code never actually inspects the status; this predicate exists so
that claims about "failures not classified as not-found" can be stated.) -/
def isNotFound (e : ApiError) : Bool := e.status == 404

/-- An exception escaping a `K8SManager` method to its caller: either the
wrapping `PolyaxonK8SError(e)` or a raw kubernetes `ApiException` that was
never caught. -/
inductive Exc where
  | polyaxonK8SError : ApiError → Exc
  | apiException : ApiError → Exc
  deriving DecidableEq, Repr

/-- `client.V1DeleteOptions(...)` as constructed in `manager.py`: the
fields the code ever sets. -/
structure V1DeleteOptions where
  api_version : Option String
  propagation_policy : Option String
  deriving DecidableEq, Repr

/-- The body `manager.py` builds for `patch_node`:
`body = {'metadata': {'labels': labels}}`. -/
structure NodePatchBody where
  metadata_labels : List (String × String)
  deriving DecidableEq, Repr

/-- One call issued to the kubernetes client, as recorded in the trace of a
method run.  Resource calls carry kind, name and namespace (namespace is
`none` for the cluster-scoped persistent volume); a delete carries the
`V1DeleteOptions` passed, or `none` when the code passes no options. -/
inductive Call where
  | readRes (kind name : String) (ns : Option String)
  | patchRes (kind name : String) (ns : Option String)
  | createRes (kind : String) (ns : Option String)
  | deleteRes (kind name : String) (ns : Option String) (opts : Option V1DeleteOptions)
  | patchNode (node : String) (body : NodePatchBody)
  deriving DecidableEq, Repr

/-- A call is mutating when it is anything other than a read. -/
def Call.isMutating : Call → Bool
  | .readRes _ _ _ => false
  | _ => true

def Call.isCreate : Call → Bool
  | .createRes _ _ => true
  | _ => false

def Call.isPatch : Call → Bool
  | .patchRes _ _ _ => true
  | .patchNode _ _ => true
  | _ => false

def Call.isDelete : Call → Bool
  | .deleteRes _ _ _ _ => true
  | _ => false

def countMutating (l : List Call) : Nat := (l.filter Call.isMutating).length

def countCreates (l : List Call) : Nat := (l.filter Call.isCreate).length

def countPatches (l : List Call) : Nat := (l.filter Call.isPatch).length

def countDeletes (l : List Call) : Nat := (l.filter Call.isDelete).length

/-- The options carried by each delete call of a trace, in order. -/
def deleteOpts (l : List Call) : List (Option V1DeleteOptions) :=
  l.filterMap fun c =>
    match c with
    | .deleteRes _ _ _ o => some o
    | _ => none

/-- The terminal branch a method run reached, matching the event logged
there; `Failed` for the error branches (spec section 3, Outcome). -/
inductive Outcome where
  | Created
  | Patched
  | Deleted
  | NotFoundNoop
  | Failed
  deriving DecidableEq, Repr

/-- The observable result of one run of a manager method: the client calls
issued, the terminal branch, and the exception escaping to the caller. -/
structure RunResult where
  calls : List Call
  outcome : Outcome
  raised : Option Exc
  deriving DecidableEq, Repr

/-- Behaviour of the client primitives an ensure-present / ensure-absent
method may invoke: `none` means the call succeeds, `some e` means it raises
an `ApiException` with error `e`. -/
structure Env where
  readErr : Option ApiError
  patchErr : Option ApiError
  createErr : Option ApiError
  deleteErr : Option ApiError
  deriving DecidableEq, Repr

/-- `constants.K8S_API_VERSION_V1`. -/
def K8S_API_VERSION_V1 : String := "v1"

/-- `constants.K8S_API_VERSION_V1_BETA1`. -/
def K8S_API_VERSION_V1_BETA1 : String := "extensions/v1beta1"

/-- `K8SManager.create_or_update_config_map(name, body, reraise=False)`
(manager.py lines 54-69).  Try read; on success set found and patch; a
caught `ApiException` with found set is logged and re-raised wrapped only
when `reraise`; with found unset (any read failure) the handler calls
create, whose own failure escapes uncaught. -/
def create_or_update_config_map (env : Env) (name ns : String) (reraise : Bool) : RunResult :=
  match env.readErr with
  | none =>
    match env.patchErr with
    | none =>
      ⟨[.readRes "ConfigMap" name (some ns), .patchRes "ConfigMap" name (some ns)],
        .Patched, none⟩
    | some e =>
      ⟨[.readRes "ConfigMap" name (some ns), .patchRes "ConfigMap" name (some ns)],
        .Failed, if reraise then some (.polyaxonK8SError e) else none⟩
  | some _ =>
    match env.createErr with
    | none =>
      ⟨[.readRes "ConfigMap" name (some ns), .createRes "ConfigMap" (some ns)],
        .Created, none⟩
    | some e =>
      ⟨[.readRes "ConfigMap" name (some ns), .createRes "ConfigMap" (some ns)],
        .Failed, some (.apiException e)⟩

/-- `K8SManager.create_or_update_service(name, data)` (manager.py lines
89-101): same protocol, but a patch failure raises `PolyaxonK8SError`
unconditionally (no reraise flag). -/
def create_or_update_service (env : Env) (name ns : String) : RunResult :=
  match env.readErr with
  | none =>
    match env.patchErr with
    | none =>
      ⟨[.readRes "Service" name (some ns), .patchRes "Service" name (some ns)],
        .Patched, none⟩
    | some e =>
      ⟨[.readRes "Service" name (some ns), .patchRes "Service" name (some ns)],
        .Failed, some (.polyaxonK8SError e)⟩
  | some _ =>
    match env.createErr with
    | none =>
      ⟨[.readRes "Service" name (some ns), .createRes "Service" (some ns)],
        .Created, none⟩
    | some e =>
      ⟨[.readRes "Service" name (some ns), .createRes "Service" (some ns)],
        .Failed, some (.apiException e)⟩

/-- `K8SManager.create_or_update_pod(name, data)` (manager.py lines
103-115). -/
def create_or_update_pod (env : Env) (name ns : String) : RunResult :=
  match env.readErr with
  | none =>
    match env.patchErr with
    | none =>
      ⟨[.readRes "Pod" name (some ns), .patchRes "Pod" name (some ns)],
        .Patched, none⟩
    | some e =>
      ⟨[.readRes "Pod" name (some ns), .patchRes "Pod" name (some ns)],
        .Failed, some (.polyaxonK8SError e)⟩
  | some _ =>
    match env.createErr with
    | none =>
      ⟨[.readRes "Pod" name (some ns), .createRes "Pod" (some ns)],
        .Created, none⟩
    | some e =>
      ⟨[.readRes "Pod" name (some ns), .createRes "Pod" (some ns)],
        .Failed, some (.apiException e)⟩

/-- `K8SManager.create_or_update_deployment(name, data)` (manager.py lines
117-129), on the extensions/v1beta1 API surface. -/
def create_or_update_deployment (env : Env) (name ns : String) : RunResult :=
  match env.readErr with
  | none =>
    match env.patchErr with
    | none =>
      ⟨[.readRes "Deployment" name (some ns), .patchRes "Deployment" name (some ns)],
        .Patched, none⟩
    | some e =>
      ⟨[.readRes "Deployment" name (some ns), .patchRes "Deployment" name (some ns)],
        .Failed, some (.polyaxonK8SError e)⟩
  | some _ =>
    match env.createErr with
    | none =>
      ⟨[.readRes "Deployment" name (some ns), .createRes "Deployment" (some ns)],
        .Created, none⟩
    | some e =>
      ⟨[.readRes "Deployment" name (some ns), .createRes "Deployment" (some ns)],
        .Failed, some (.apiException e)⟩

/-- `K8SManager.create_or_update_volume(name, data)` (manager.py lines
180-192); persistent volumes are cluster-scoped, no namespace. -/
def create_or_update_volume (env : Env) (name : String) : RunResult :=
  match env.readErr with
  | none =>
    match env.patchErr with
    | none =>
      ⟨[.readRes "PersistentVolume" name none, .patchRes "PersistentVolume" name none],
        .Patched, none⟩
    | some e =>
      ⟨[.readRes "PersistentVolume" name none, .patchRes "PersistentVolume" name none],
        .Failed, some (.polyaxonK8SError e)⟩
  | some _ =>
    match env.createErr with
    | none =>
      ⟨[.readRes "PersistentVolume" name none, .createRes "PersistentVolume" none],
        .Created, none⟩
    | some e =>
      ⟨[.readRes "PersistentVolume" name none, .createRes "PersistentVolume" none],
        .Failed, some (.apiException e)⟩

/-- `K8SManager.create_or_update_volume_claim(name, data)` (manager.py
lines 194-208). -/
def create_or_update_volume_claim (env : Env) (name ns : String) : RunResult :=
  match env.readErr with
  | none =>
    match env.patchErr with
    | none =>
      ⟨[.readRes "PersistentVolumeClaim" name (some ns),
        .patchRes "PersistentVolumeClaim" name (some ns)], .Patched, none⟩
    | some e =>
      ⟨[.readRes "PersistentVolumeClaim" name (some ns),
        .patchRes "PersistentVolumeClaim" name (some ns)],
        .Failed, some (.polyaxonK8SError e)⟩
  | some _ =>
    match env.createErr with
    | none =>
      ⟨[.readRes "PersistentVolumeClaim" name (some ns),
        .createRes "PersistentVolumeClaim" (some ns)], .Created, none⟩
    | some e =>
      ⟨[.readRes "PersistentVolumeClaim" name (some ns),
        .createRes "PersistentVolumeClaim" (some ns)],
        .Failed, some (.apiException e)⟩

/-- `K8SManager.delete_config_map(name, reraise=False)` (manager.py lines
71-87): read, then delete with `V1DeleteOptions(api_version='v1')`; a
delete failure is re-raised wrapped only when `reraise`; any read failure
lands in the else branch, which just logs `was not found`. -/
def delete_config_map (env : Env) (name ns : String) (reraise : Bool) : RunResult :=
  match env.readErr with
  | none =>
    match env.deleteErr with
    | none =>
      ⟨[.readRes "ConfigMap" name (some ns),
        .deleteRes "ConfigMap" name (some ns) (some ⟨some K8S_API_VERSION_V1, none⟩)],
        .Deleted, none⟩
    | some e =>
      ⟨[.readRes "ConfigMap" name (some ns),
        .deleteRes "ConfigMap" name (some ns) (some ⟨some K8S_API_VERSION_V1, none⟩)],
        .Failed, if reraise then some (.polyaxonK8SError e) else none⟩
  | some _ => ⟨[.readRes "ConfigMap" name (some ns)], .NotFoundNoop, none⟩

/-- `K8SManager.delete_service(name)` (manager.py lines 131-143): the
delete call passes no `V1DeleteOptions`; a delete failure always raises
`PolyaxonK8SError`. -/
def delete_service (env : Env) (name ns : String) : RunResult :=
  match env.readErr with
  | none =>
    match env.deleteErr with
    | none =>
      ⟨[.readRes "Service" name (some ns), .deleteRes "Service" name (some ns) none],
        .Deleted, none⟩
    | some e =>
      ⟨[.readRes "Service" name (some ns), .deleteRes "Service" name (some ns) none],
        .Failed, some (.polyaxonK8SError e)⟩
  | some _ => ⟨[.readRes "Service" name (some ns)], .NotFoundNoop, none⟩

/-- `K8SManager.delete_pod(name)` (manager.py lines 145-160). -/
def delete_pod (env : Env) (name ns : String) : RunResult :=
  match env.readErr with
  | none =>
    match env.deleteErr with
    | none =>
      ⟨[.readRes "Pod" name (some ns),
        .deleteRes "Pod" name (some ns) (some ⟨some K8S_API_VERSION_V1, none⟩)],
        .Deleted, none⟩
    | some e =>
      ⟨[.readRes "Pod" name (some ns),
        .deleteRes "Pod" name (some ns) (some ⟨some K8S_API_VERSION_V1, none⟩)],
        .Failed, some (.polyaxonK8SError e)⟩
  | some _ => ⟨[.readRes "Pod" name (some ns)], .NotFoundNoop, none⟩

/-- `K8SManager.delete_deployment(name)` (manager.py lines 162-178):
delete options carry `api_version='extensions/v1beta1'` and
`propagation_policy='Foreground'`. -/
def delete_deployment (env : Env) (name ns : String) : RunResult :=
  match env.readErr with
  | none =>
    match env.deleteErr with
    | none =>
      ⟨[.readRes "Deployment" name (some ns),
        .deleteRes "Deployment" name (some ns)
          (some ⟨some K8S_API_VERSION_V1_BETA1, some "Foreground"⟩)],
        .Deleted, none⟩
    | some e =>
      ⟨[.readRes "Deployment" name (some ns),
        .deleteRes "Deployment" name (some ns)
          (some ⟨some K8S_API_VERSION_V1_BETA1, some "Foreground"⟩)],
        .Failed, some (.polyaxonK8SError e)⟩
  | some _ => ⟨[.readRes "Deployment" name (some ns)], .NotFoundNoop, none⟩

/-- `K8SManager.delete_volume(name)` (manager.py lines 210-224);
cluster-scoped, no namespace, no reraise flag. -/
def delete_volume (env : Env) (name : String) : RunResult :=
  match env.readErr with
  | none =>
    match env.deleteErr with
    | none =>
      ⟨[.readRes "PersistentVolume" name none,
        .deleteRes "PersistentVolume" name none (some ⟨some K8S_API_VERSION_V1, none⟩)],
        .Deleted, none⟩
    | some e =>
      ⟨[.readRes "PersistentVolume" name none,
        .deleteRes "PersistentVolume" name none (some ⟨some K8S_API_VERSION_V1, none⟩)],
        .Failed, some (.polyaxonK8SError e)⟩
  | some _ => ⟨[.readRes "PersistentVolume" name none], .NotFoundNoop, none⟩

/-- `K8SManager.delete_volume_claim(name)` (manager.py lines 226-241); no
reraise flag. -/
def delete_volume_claim (env : Env) (name ns : String) : RunResult :=
  match env.readErr with
  | none =>
    match env.deleteErr with
    | none =>
      ⟨[.readRes "PersistentVolumeClaim" name (some ns),
        .deleteRes "PersistentVolumeClaim" name (some ns)
          (some ⟨some K8S_API_VERSION_V1, none⟩)],
        .Deleted, none⟩
    | some e =>
      ⟨[.readRes "PersistentVolumeClaim" name (some ns),
        .deleteRes "PersistentVolumeClaim" name (some ns)
          (some ⟨some K8S_API_VERSION_V1, none⟩)],
        .Failed, some (.polyaxonK8SError e)⟩
  | some _ => ⟨[.readRes "PersistentVolumeClaim" name (some ns)], .NotFoundNoop, none⟩

/-- Behaviour of the node-level client primitives: the items `list_node`
would return on success (node names stand in for the opaque node objects),
and whether `list_node` or `patch_node` raises. -/
structure NodeEnv where
  nodes : List String
  listErr : Option ApiError
  patchErr : Option ApiError
  deriving DecidableEq, Repr

/-- `K8SManager.get_node_items(reraise=False)` (manager.py lines 36-43):
returns the comprehension `[p for p in res.items]` on success; on
`ApiException` it logs and, unless `reraise`, falls off the end of the
method, returning `None`. -/
def get_node_items (env : NodeEnv) (reraise : Bool) : Option (List String) × Option Exc :=
  match env.listErr with
  | none => (some env.nodes, none)
  | some e => (none, if reraise then some (.polyaxonK8SError e) else none)

/-- `K8SManager.update_node_labels(node, labels, reraise=False)`
(manager.py lines 45-52): one blind `patch_node(node, body)` with
`body = {'metadata': {'labels': labels}}`, no read; on failure, raises
wrapped only when `reraise`. -/
def update_node_labels (env : NodeEnv) (node : String) (labels : List (String × String))
    (reraise : Bool) : RunResult :=
  match env.patchErr with
  | none => ⟨[.patchNode node ⟨labels⟩], .Patched, none⟩
  | some e =>
    ⟨[.patchNode node ⟨labels⟩], .Failed,
      if reraise then some (.polyaxonK8SError e) else none⟩

/-- Behaviour of `get_code()` for `get_version`. -/
structure VersionEnv where
  version : String
  err : Option ApiError
  deriving DecidableEq, Repr

/-- `K8SManager.get_version(reraise=False)` (manager.py lines 28-34). -/
def get_version (env : VersionEnv) (reraise : Bool) : Option String × Option Exc :=
  match env.err with
  | none => (some env.version, none)
  | some e => (none, if reraise then some (.polyaxonK8SError e) else none)

/-- Python truthiness of the value `get_node_items` returns: `None` and
the empty list are both falsy. -/
def pyTruthy : Option (List String) → Bool
  | none => false
  | some l => !l.isEmpty

/-- Every exception this run lets escape is the wrapping
`PolyaxonK8SError`, never a raw `ApiException`. -/
def wrappedOnly : Option Exc → Prop
  | some (Exc.apiException _) => False
  | _ => True

/-- An escaping exception is either wrapped, or it is the raw
`ApiException` of a create call attempted after a failed read. -/
def excOk (env : Env) (r : RunResult) : Prop :=
  match r.raised with
  | some (Exc.apiException e) => env.readErr ≠ none ∧ env.createErr = some e
  | _ => True

/-- The run took the create branch: exactly one create call, no patch and
no delete, and when the create succeeds its outcome is Created. -/
def takesCreateBranch (env : Env) (r : RunResult) : Prop :=
  countCreates r.calls = 1 ∧ countPatches r.calls = 0 ∧ countDeletes r.calls = 0 ∧
    (env.createErr = none → r.outcome = Outcome.Created)

/-- The run treated the resource as already absent: NotFoundNoop, nothing
raised, no mutating call. -/
def treatsAsAbsent (r : RunResult) : Prop :=
  r.outcome = Outcome.NotFoundNoop ∧ r.raised = none ∧ countMutating r.calls = 0

/-- The run issued at most one mutating call, at most one create-or-patch
in total, and no delete. -/
def atMostOneMutation (r : RunResult) : Prop :=
  countMutating r.calls ≤ 1 ∧ countCreates r.calls + countPatches r.calls ≤ 1 ∧
    countDeletes r.calls = 0

/-- An environment whose read fails with status 403 (permission denied,
not classified not-found) and whose other primitives succeed. -/
def env403 : Env := ⟨some ⟨403⟩, none, none, none⟩

/-- C1 counterexample: with a permission-denied (403) read failure, which
is not classified not-found, `create_or_update_config_map` does not signal
Failed; it issues a create call and reaches Outcome Created, contradicting
the claim that no create is ever issued in this case. -/
theorem C1_counterexample :
    isNotFound ⟨403⟩ = false ∧
      (create_or_update_config_map env403 "cm" "default" false).outcome = Outcome.Created ∧
      countCreates (create_or_update_config_map env403 "cm" "default" false).calls = 1 :=
  ⟨rfl, rfl, rfl⟩

/-- C1 amended: every ensure-present operation never classifies the read
failure; on any read failure not classified as not-found it still takes
the create branch (exactly one create, no patch or delete) and, when that
create succeeds, ends with Outcome Created rather than Failed. -/
theorem C1_amended (env : Env) (e : ApiError) (name ns : String) (reraise : Bool)
    (hr : env.readErr = some e) (hnf : isNotFound e = false) :
    takesCreateBranch env (create_or_update_config_map env name ns reraise) ∧
      takesCreateBranch env (create_or_update_service env name ns) ∧
      takesCreateBranch env (create_or_update_pod env name ns) ∧
      takesCreateBranch env (create_or_update_deployment env name ns) ∧
      takesCreateBranch env (create_or_update_volume env name) ∧
      takesCreateBranch env (create_or_update_volume_claim env name ns) := by
  rcases env with ⟨r, p, c, d⟩
  cases hr
  cases c <;>
    simp [takesCreateBranch, create_or_update_config_map, create_or_update_service,
      create_or_update_pod, create_or_update_deployment, create_or_update_volume,
      create_or_update_volume_claim, countCreates, countPatches, countDeletes,
      List.filter, Call.isCreate, Call.isPatch, Call.isDelete]

/-- C1 witness: the amended theorem applied at the 403 environment. -/
theorem C1_witness :
    env403.readErr = some ⟨403⟩ ∧ isNotFound ⟨403⟩ = false ∧
      (takesCreateBranch env403 (create_or_update_config_map env403 "n" "d" false) ∧
        takesCreateBranch env403 (create_or_update_service env403 "n" "d") ∧
        takesCreateBranch env403 (create_or_update_pod env403 "n" "d") ∧
        takesCreateBranch env403 (create_or_update_deployment env403 "n" "d") ∧
        takesCreateBranch env403 (create_or_update_volume env403 "n") ∧
        takesCreateBranch env403 (create_or_update_volume_claim env403 "n" "d")) :=
  ⟨rfl, rfl, C1_amended env403 ⟨403⟩ "n" "d" false rfl rfl⟩

/-- C2 counterexample: with a permission-denied (403) read failure,
`delete_config_map` does not signal Failed; it treats the resource as
already absent (NotFoundNoop, nothing raised). -/
theorem C2_counterexample :
    isNotFound ⟨403⟩ = false ∧
      (delete_config_map env403 "cm" "default" false).outcome = Outcome.NotFoundNoop ∧
      (delete_config_map env403 "cm" "default" false).raised = none :=
  ⟨rfl, rfl, rfl⟩

/-- C2 amended: every ensure-absent operation treats any read failure,
including one not classified as not-found, as the resource being already
absent: Outcome NotFoundNoop, nothing raised, no mutating call. -/
theorem C2_amended (env : Env) (e : ApiError) (name ns : String) (reraise : Bool)
    (hr : env.readErr = some e) (hnf : isNotFound e = false) :
    treatsAsAbsent (delete_config_map env name ns reraise) ∧
      treatsAsAbsent (delete_service env name ns) ∧
      treatsAsAbsent (delete_pod env name ns) ∧
      treatsAsAbsent (delete_deployment env name ns) ∧
      treatsAsAbsent (delete_volume env name) ∧
      treatsAsAbsent (delete_volume_claim env name ns) := by
  rcases env with ⟨r, p, c, d⟩
  cases hr
  simp [treatsAsAbsent, delete_config_map, delete_service, delete_pod,
    delete_deployment, delete_volume, delete_volume_claim, countMutating,
    List.filter, Call.isMutating]

/-- C2 witness: the amended theorem applied at the 403 environment. -/
theorem C2_witness :
    env403.readErr = some ⟨403⟩ ∧ isNotFound ⟨403⟩ = false ∧
      (treatsAsAbsent (delete_config_map env403 "n" "d" false) ∧
        treatsAsAbsent (delete_service env403 "n" "d") ∧
        treatsAsAbsent (delete_pod env403 "n" "d") ∧
        treatsAsAbsent (delete_deployment env403 "n" "d") ∧
        treatsAsAbsent (delete_volume env403 "n") ∧
        treatsAsAbsent (delete_volume_claim env403 "n" "d")) :=
  ⟨rfl, rfl, C2_amended env403 ⟨403⟩ "n" "d" false rfl rfl⟩

/-- C3: in every environment, whatever the fate of the read, patch and
create calls, each ensure-present operation issues at most one mutating
call, at most one create-or-patch in total (so never both), and no
delete. -/
theorem C3_at_most_one_mutation (env : Env) (name ns : String) (reraise : Bool) :
    atMostOneMutation (create_or_update_config_map env name ns reraise) ∧
      atMostOneMutation (create_or_update_service env name ns) ∧
      atMostOneMutation (create_or_update_pod env name ns) ∧
      atMostOneMutation (create_or_update_deployment env name ns) ∧
      atMostOneMutation (create_or_update_volume env name) ∧
      atMostOneMutation (create_or_update_volume_claim env name ns) := by
  rcases env with ⟨r, p, c, d⟩
  cases r <;> cases p <;> cases c <;>
    simp [atMostOneMutation, create_or_update_config_map, create_or_update_service,
      create_or_update_pod, create_or_update_deployment, create_or_update_volume,
      create_or_update_volume_claim, countMutating, countCreates, countPatches,
      countDeletes, List.filter, Call.isMutating, Call.isCreate, Call.isPatch,
      Call.isDelete]

/-- An environment in which every client primitive succeeds. -/
def envOk : Env := ⟨none, none, none, none⟩

/-- An environment in which only the delete call fails, with status 500. -/
def envDel500 : Env := ⟨none, none, none, some ⟨500⟩⟩

/-- An environment in which the read fails with 404 and the create fails
with 500. -/
def envCreateFail : Env := ⟨some ⟨404⟩, none, some ⟨500⟩, none⟩

/-- C4 counterexample: on a successful read, `delete_service` issues its
one delete call with no delete-options payload at all, so the options do
not carry the kind's API version string. -/
theorem C4_counterexample :
    deleteOpts (delete_service envOk "svc" "default").calls = [none] :=
  rfl

/-- C4 amended: on a successful read, the delete calls of the config-map,
pod, volume and volume-claim operations carry options with API version
"v1", the deployment delete carries options with API version
"extensions/v1beta1" and propagation policy "Foreground", but the service
delete passes no delete options. -/
theorem C4_amended (env : Env) (name ns : String) (reraise : Bool)
    (hr : env.readErr = none) :
    deleteOpts (delete_config_map env name ns reraise).calls =
        [some ⟨some K8S_API_VERSION_V1, none⟩] ∧
      deleteOpts (delete_pod env name ns).calls =
        [some ⟨some K8S_API_VERSION_V1, none⟩] ∧
      deleteOpts (delete_deployment env name ns).calls =
        [some ⟨some K8S_API_VERSION_V1_BETA1, some "Foreground"⟩] ∧
      deleteOpts (delete_volume env name).calls =
        [some ⟨some K8S_API_VERSION_V1, none⟩] ∧
      deleteOpts (delete_volume_claim env name ns).calls =
        [some ⟨some K8S_API_VERSION_V1, none⟩] ∧
      deleteOpts (delete_service env name ns).calls = [none] := by
  rcases env with ⟨r, p, c, d⟩
  cases hr
  cases d <;>
    simp [deleteOpts, delete_config_map, delete_pod, delete_deployment,
      delete_volume, delete_volume_claim, delete_service, List.filterMap]

/-- C4 witness: the amended theorem applied at the all-success
environment. -/
theorem C4_witness :
    envOk.readErr = none ∧
      (deleteOpts (delete_config_map envOk "n" "d" false).calls =
          [some ⟨some K8S_API_VERSION_V1, none⟩] ∧
        deleteOpts (delete_pod envOk "n" "d").calls =
          [some ⟨some K8S_API_VERSION_V1, none⟩] ∧
        deleteOpts (delete_deployment envOk "n" "d").calls =
          [some ⟨some K8S_API_VERSION_V1_BETA1, some "Foreground"⟩] ∧
        deleteOpts (delete_volume envOk "n").calls =
          [some ⟨some K8S_API_VERSION_V1, none⟩] ∧
        deleteOpts (delete_volume_claim envOk "n" "d").calls =
          [some ⟨some K8S_API_VERSION_V1, none⟩] ∧
        deleteOpts (delete_service envOk "n" "d").calls = [none]) :=
  ⟨rfl, C4_amended envOk "n" "d" false rfl⟩

/-- C5 counterexample: `delete_volume` and `delete_volume_claim` take no
reraise flag; on a delete failure after a successful read they raise the
wrapped error unconditionally, so their propagation cannot be
suppressed. -/
theorem C5_counterexample :
    (delete_volume envDel500 "vol").raised = some (.polyaxonK8SError ⟨500⟩) ∧
      (delete_volume_claim envDel500 "pvc" "default").raised =
        some (.polyaxonK8SError ⟨500⟩) :=
  ⟨rfl, rfl⟩

/-- C5 amended: after a successful read, a delete failure is suppressible
by the reraise flag only in the config-map operation; the service, pod,
deployment, volume and volume-claim operations propagate the wrapped error
unconditionally. -/
theorem C5_amended (env : Env) (e : ApiError) (name ns : String)
    (hr : env.readErr = none) (hd : env.deleteErr = some e) :
    (delete_config_map env name ns false).raised = none ∧
      (delete_config_map env name ns true).raised = some (.polyaxonK8SError e) ∧
      (delete_service env name ns).raised = some (.polyaxonK8SError e) ∧
      (delete_pod env name ns).raised = some (.polyaxonK8SError e) ∧
      (delete_deployment env name ns).raised = some (.polyaxonK8SError e) ∧
      (delete_volume env name).raised = some (.polyaxonK8SError e) ∧
      (delete_volume_claim env name ns).raised = some (.polyaxonK8SError e) := by
  rcases env with ⟨r, p, c, d⟩
  cases hr
  cases hd
  simp [delete_config_map, delete_service, delete_pod, delete_deployment,
    delete_volume, delete_volume_claim]

/-- C5 witness: the amended theorem applied at the delete-fails
environment. -/
theorem C5_witness :
    envDel500.readErr = none ∧ envDel500.deleteErr = some ⟨500⟩ ∧
      ((delete_config_map envDel500 "n" "d" false).raised = none ∧
        (delete_config_map envDel500 "n" "d" true).raised =
          some (.polyaxonK8SError ⟨500⟩) ∧
        (delete_service envDel500 "n" "d").raised = some (.polyaxonK8SError ⟨500⟩) ∧
        (delete_pod envDel500 "n" "d").raised = some (.polyaxonK8SError ⟨500⟩) ∧
        (delete_deployment envDel500 "n" "d").raised = some (.polyaxonK8SError ⟨500⟩) ∧
        (delete_volume envDel500 "n").raised = some (.polyaxonK8SError ⟨500⟩) ∧
        (delete_volume_claim envDel500 "n" "d").raised =
          some (.polyaxonK8SError ⟨500⟩)) :=
  ⟨rfl, rfl, C5_amended envDel500 ⟨500⟩ "n" "d" rfl rfl⟩

/-- C6 counterexample: when the read fails and the create also fails, the
create failure escapes `create_or_update_service` as a raw ApiException,
not wrapped in PolyaxonK8SError. -/
theorem C6_counterexample :
    (create_or_update_service envCreateFail "svc" "default").raised =
      some (.apiException ⟨500⟩) :=
  rfl

/-- C6 amended: every exception any public operation raises is the
wrapping PolyaxonK8SError, except that a create failure in the
ensure-present operations (reached only after a failed read) escapes as
the raw underlying ApiException. -/
theorem C6_amended (env : Env) (nenv : NodeEnv) (venv : VersionEnv)
    (name ns node : String) (labels : List (String × String)) (reraise : Bool) :
    excOk env (create_or_update_config_map env name ns reraise) ∧
      excOk env (create_or_update_service env name ns) ∧
      excOk env (create_or_update_pod env name ns) ∧
      excOk env (create_or_update_deployment env name ns) ∧
      excOk env (create_or_update_volume env name) ∧
      excOk env (create_or_update_volume_claim env name ns) ∧
      wrappedOnly (delete_config_map env name ns reraise).raised ∧
      wrappedOnly (delete_service env name ns).raised ∧
      wrappedOnly (delete_pod env name ns).raised ∧
      wrappedOnly (delete_deployment env name ns).raised ∧
      wrappedOnly (delete_volume env name).raised ∧
      wrappedOnly (delete_volume_claim env name ns).raised ∧
      wrappedOnly (get_version venv reraise).2 ∧
      wrappedOnly (get_node_items nenv reraise).2 ∧
      wrappedOnly (update_node_labels nenv node labels reraise).raised := by
  rcases env with ⟨r, p, c, d⟩
  rcases nenv with ⟨nodes, le, pe⟩
  rcases venv with ⟨v, ve⟩
  cases r <;> cases p <;> cases c <;> cases d <;> cases le <;> cases pe <;>
    cases ve <;> cases reraise <;>
    simp [excOk, wrappedOnly, create_or_update_config_map, create_or_update_service,
      create_or_update_pod, create_or_update_deployment, create_or_update_volume,
      create_or_update_volume_claim, delete_config_map, delete_service, delete_pod,
      delete_deployment, delete_volume, delete_volume_claim, get_version,
      get_node_items, update_node_labels]

/-- A run that issued exactly one delete call and, when the delete
succeeds, ended with Outcome Deleted. -/
def deletedOnSuccess (env : Env) (r : RunResult) : Prop :=
  countDeletes r.calls = 1 ∧ (env.deleteErr = none → r.outcome = Outcome.Deleted)

/-- C7: when the read succeeds (the resource exists), every ensure-absent
operation issues exactly one delete call and, when the delete succeeds,
ends with Outcome Deleted; the deployment delete carries propagation
policy "Foreground" in its options. -/
theorem C7_delete_existing (env : Env) (name ns : String) (reraise : Bool)
    (hr : env.readErr = none) :
    deletedOnSuccess env (delete_config_map env name ns reraise) ∧
      deletedOnSuccess env (delete_service env name ns) ∧
      deletedOnSuccess env (delete_pod env name ns) ∧
      deletedOnSuccess env (delete_deployment env name ns) ∧
      deletedOnSuccess env (delete_volume env name) ∧
      deletedOnSuccess env (delete_volume_claim env name ns) ∧
      deleteOpts (delete_deployment env name ns).calls =
        [some ⟨some K8S_API_VERSION_V1_BETA1, some "Foreground"⟩] := by
  rcases env with ⟨r, p, c, d⟩
  cases hr
  cases d <;>
    simp [deletedOnSuccess, deleteOpts, delete_config_map, delete_service,
      delete_pod, delete_deployment, delete_volume, delete_volume_claim,
      countDeletes, List.filter, Call.isDelete, List.filterMap]

/-- C7 witness: the theorem applied at the all-success environment. -/
theorem C7_witness :
    envOk.readErr = none ∧
      (deletedOnSuccess envOk (delete_config_map envOk "n" "d" false) ∧
        deletedOnSuccess envOk (delete_service envOk "n" "d") ∧
        deletedOnSuccess envOk (delete_pod envOk "n" "d") ∧
        deletedOnSuccess envOk (delete_deployment envOk "n" "d") ∧
        deletedOnSuccess envOk (delete_volume envOk "n") ∧
        deletedOnSuccess envOk (delete_volume_claim envOk "n" "d") ∧
        deleteOpts (delete_deployment envOk "n" "d").calls =
          [some ⟨some K8S_API_VERSION_V1_BETA1, some "Foreground"⟩]) :=
  ⟨rfl, C7_delete_existing envOk "n" "d" false rfl⟩

/-- C8: when the read fails (so the create branch runs) and the create
also fails, every ensure-present operation lets the create failure escape
to the caller, independent of any reraise flag (the config-map operation
is quantified over both flag values through `reraise`). -/
theorem C8_create_failure_propagates (env : Env) (er e : ApiError)
    (name ns : String) (reraise : Bool)
    (hr : env.readErr = some er) (hc : env.createErr = some e) :
    (create_or_update_config_map env name ns reraise).raised =
        some (.apiException e) ∧
      (create_or_update_service env name ns).raised = some (.apiException e) ∧
      (create_or_update_pod env name ns).raised = some (.apiException e) ∧
      (create_or_update_deployment env name ns).raised = some (.apiException e) ∧
      (create_or_update_volume env name).raised = some (.apiException e) ∧
      (create_or_update_volume_claim env name ns).raised = some (.apiException e) := by
  rcases env with ⟨r, p, c, d⟩
  cases hr
  cases hc
  simp [create_or_update_config_map, create_or_update_service, create_or_update_pod,
    create_or_update_deployment, create_or_update_volume,
    create_or_update_volume_claim]

/-- C8 witness: the theorem applied where the read fails with 404 and the
create fails with 500, with the reraise flag unset. -/
theorem C8_witness :
    envCreateFail.readErr = some ⟨404⟩ ∧ envCreateFail.createErr = some ⟨500⟩ ∧
      ((create_or_update_config_map envCreateFail "n" "d" false).raised =
          some (.apiException ⟨500⟩) ∧
        (create_or_update_service envCreateFail "n" "d").raised =
          some (.apiException ⟨500⟩) ∧
        (create_or_update_pod envCreateFail "n" "d").raised =
          some (.apiException ⟨500⟩) ∧
        (create_or_update_deployment envCreateFail "n" "d").raised =
          some (.apiException ⟨500⟩) ∧
        (create_or_update_volume envCreateFail "n").raised =
          some (.apiException ⟨500⟩) ∧
        (create_or_update_volume_claim envCreateFail "n" "d").raised =
          some (.apiException ⟨500⟩)) :=
  ⟨rfl, rfl, C8_create_failure_propagates envCreateFail ⟨404⟩ ⟨500⟩ "n" "d" false rfl rfl⟩

/-- C9: `update_node_labels` issues exactly one client call, a patch of
the named node whose body puts the supplied labels under metadata.labels,
with no read before it; and it raises (the wrapped error) exactly when the
patch fails and the reraise flag is set. -/
theorem C9_update_node_labels_blind_patch (env : NodeEnv) (node : String)
    (labels : List (String × String)) (reraise : Bool) :
    (update_node_labels env node labels reraise).calls =
        [Call.patchNode node ⟨labels⟩] ∧
      (update_node_labels env node labels reraise).raised =
        (match env.patchErr with
          | none => none
          | some e => if reraise then some (Exc.polyaxonK8SError e) else none) := by
  rcases env with ⟨nodes, le, pe⟩
  cases pe <;> simp [update_node_labels]

/-- C10: `get_node_items` returns the item list when the list call
succeeds; when the list call fails and reraise is unset it returns None
(not an empty list) and raises nothing, and that None is
truthiness-indistinguishable from a successful empty listing. -/
theorem C10_none_vs_empty (env : NodeEnv) (e : ApiError)
    (hl : env.listErr = some e) :
    (∀ env2 : NodeEnv, env2.listErr = none →
        ∀ rr : Bool, (get_node_items env2 rr).1 = some env2.nodes) ∧
      (get_node_items env false).1 = none ∧
      (get_node_items env false).2 = none ∧
      pyTruthy (get_node_items env false).1 = pyTruthy (some ([] : List String)) := by
  rcases env with ⟨nodes, le, pe⟩
  cases hl
  refine ⟨?_, rfl, rfl, rfl⟩
  intro env2 h2 rr
  rcases env2 with ⟨nodes2, le2, pe2⟩
  cases h2
  rfl

/-- C10 witness: the theorem applied at a listing that fails with 500. -/
theorem C10_witness :
    (⟨["n1"], some ⟨500⟩, none⟩ : NodeEnv).listErr = some ⟨500⟩ ∧
      ((∀ env2 : NodeEnv, env2.listErr = none →
          ∀ rr : Bool, (get_node_items env2 rr).1 = some env2.nodes) ∧
        (get_node_items ⟨["n1"], some ⟨500⟩, none⟩ false).1 = none ∧
        (get_node_items ⟨["n1"], some ⟨500⟩, none⟩ false).2 = none ∧
        pyTruthy (get_node_items ⟨["n1"], some ⟨500⟩, none⟩ false).1 =
          pyTruthy (some ([] : List String))) :=
  ⟨rfl, C10_none_vs_empty ⟨["n1"], some ⟨500⟩, none⟩ ⟨500⟩ rfl⟩
